import Mathlib

/-!
Shallow embedding of the job-dispatch / monitoring core of the `ap` repository
(`src/app/monitor.py`, `src/app/colab_runner.py`, `src/app/pipeline_core.py`).

Timestamps are modelled as integers (seconds); SQLite's `CURRENT_TIMESTAMP` is
passed in explicitly as a `now` argument.  Each SQLite table becomes a list of
row structures; `UPDATE ... WHERE` becomes a `List.map` guarded by the `WHERE`
condition, `DELETE ... WHERE` a `List.filter`, and `INSERT` an append (with the
`UNIQUE` constraint on `tasks.task_id` modelled as an explicit error return).
-/

namespace AP

/-! ## monitor.py — `TaskMonitor` data model -/

/-- One row of the `tasks` table (`init_database` in monitor.py). -/
structure TaskRow where
  task_id : String
  task_type : String
  status : String
  user : Option String
  created_at : Int
  started_at : Option Int
  completed_at : Option Int
  duration : Option Int
  result_path : Option String
  error_message : Option String
  parameters : Option String
deriving Repr, DecidableEq

/-- One element appended to the in-memory `task_history` deque by `log_task`. -/
structure TaskEvent where
  task_id : String
  task_type : String
  status : String
  user : Option String
  timestamp : Int
deriving Repr, DecidableEq

/-- One row of the `errors` table. -/
structure ErrorRow where
  timestamp : Int
  task_id : String
  error_type : String
  error_message : String
  stack_trace : Option String
  resolved : Bool
deriving Repr, DecidableEq

/-- The mutable state of `TaskMonitor` that `log_task` / `update_task_result`
touch: the `tasks` and `errors` tables, the `task_history` deque
(maxlen 1000) and the `active_tasks` dict. -/
structure MonState where
  tasks : List TaskRow
  task_history : List TaskEvent
  active_tasks : List (String × TaskEvent)
  errors : List ErrorRow
deriving Repr, DecidableEq

/-- Python dict assignment `d[k] = v`: overwrite in place if the key is
present, else append (insertion order preserved). -/
def dictInsert (l : List (String × TaskEvent)) (k : String) (v : TaskEvent) :
    List (String × TaskEvent) :=
  if l.any (fun p => p.1 = k) then
    l.map (fun p => if p.1 = k then (k, v) else p)
  else
    l ++ [(k, v)]

/-- Python `dict.pop(k, None)`: drop the key if present. -/
def dictPop (l : List (String × TaskEvent)) (k : String) :
    List (String × TaskEvent) :=
  l.filter (fun p => ¬ p.1 = k)

/-- Python `collections.deque(maxlen = n)` append: keep only the newest `n` items. -/
def dequeAppend (n : Nat) (l : List TaskEvent) (x : TaskEvent) : List TaskEvent :=
  let h := l ++ [x]
  h.drop (h.length - n)

/-- The terminal statuses of the spec's state machine (`completed`, `failed`,
`cancelled`); `log_task` uses the same three strings in its terminal branch. -/
def isTerminalStatus (s : String) : Bool :=
  s = "completed" || s = "failed" || s = "cancelled"

/-- Model of `TaskMonitor.log_task` (monitor.py lines 267-333).  Appends to
`task_history`, then: for `status = 'created'` INSERTs a new row (the `UNIQUE`
constraint on `task_id` rejects a duplicate: the error is returned and the
table is left unchanged); for `'started'` / terminal statuses UPDATEs the row
matching `task_id` unconditionally (no check of the current status); finally
maintains `active_tasks`.  Returns the new state plus the raised error, if
any. -/
def log_task (s : MonState) (now : Int) (task_id task_type status : String)
    (user : Option String) (parameters : Option String) :
    MonState × Option String :=
  let task_data : TaskEvent := ⟨task_id, task_type, status, user, now⟩
  let s : MonState := { s with task_history := dequeAppend 1000 s.task_history task_data }
  if status = "created" then
    if s.tasks.any (fun r => r.task_id = task_id) then
      (s, some "UNIQUE constraint failed: tasks.task_id")
    else
      ({ s with tasks := s.tasks ++
          [⟨task_id, task_type, status, user, now, none, none, none, none,
            none, parameters⟩] }, none)
  else if status = "started" then
    let s : MonState := { s with tasks := s.tasks.map (fun r =>
      if r.task_id = task_id then
        { r with status := status, started_at := some now }
      else r) }
    ({ s with active_tasks := dictInsert s.active_tasks task_id task_data },
      none)
  else if isTerminalStatus status then
    let s : MonState := { s with tasks := s.tasks.map (fun r =>
      if r.task_id = task_id then
        { r with status := status, completed_at := some now }
      else r) }
    let s : MonState := { s with tasks := s.tasks.map (fun r =>
      if r.task_id = task_id ∧ r.started_at.isSome ∧ r.completed_at.isSome then
        { r with duration := some (r.completed_at.getD 0 - r.started_at.getD 0) }
      else r) }
    ({ s with active_tasks := dictPop s.active_tasks task_id }, none)
  else
    (s, none)

/-- Model of `TaskMonitor.log_error` (monitor.py lines 360-374): INSERT into `errors`. -/
def log_error (s : MonState) (now : Int) (task_id error_type error_message : String)
    (stack_trace : Option String) : MonState :=
  { s with errors := s.errors ++
      [⟨now, task_id, error_type, error_message, stack_trace, false⟩] }

/-- Python truthiness of an optional string (`if error_message:`). -/
def strTruthy : Option String → Bool
  | some e => ¬ e = ""
  | none => false

/-- Model of `TaskMonitor.update_task_result` (monitor.py lines 335-358): if
`error_message` is truthy, UPDATE the row matching `task_id` to
`status = 'failed'` with the error text (and log the error); otherwise UPDATE
it to `status = 'completed'` with the result path.  No check of the current
status in either branch. -/
def update_task_result (s : MonState) (now : Int) (task_id : String)
    (result_path : Option String) (error_message : Option String) : MonState :=
  if strTruthy error_message then
    let s : MonState := { s with tasks := s.tasks.map (fun r =>
      if r.task_id = task_id then
        { r with error_message := error_message, status := "failed" }
      else r) }
    log_error s now task_id "task_error" (error_message.getD "") none
  else
    { s with tasks := s.tasks.map (fun r =>
      if r.task_id = task_id then
        { r with result_path := result_path, status := "completed" }
      else r) }

/-- Status of the stored row for a task id (`SELECT status FROM tasks WHERE
task_id = ?`). -/
def statusOf (s : MonState) (task_id : String) : Option String :=
  (s.tasks.find? (fun r => r.task_id = task_id)).map (fun r => r.status)

/-- The empty store. -/
def emptyMonState : MonState := ⟨[], [], [], []⟩


def sampleCreated : MonState :=
  (log_task emptyMonState 0 "t1" "video_generation" "created" (some "alice") none).1

def sampleStarted : MonState :=
  (log_task sampleCreated 1 "t1" "video_generation" "started" (some "alice") none).1

def sampleCompleted : MonState :=
  (log_task sampleStarted 2 "t1" "video_generation" "completed" (some "alice") none).1

def sampleRestarted : MonState :=
  (log_task sampleCompleted 3 "t1" "video_generation" "started" (some "alice") none).1

def sampleCancelled : MonState :=
  (log_task sampleStarted 2 "t1" "video_generation" "cancelled" (some "alice") none).1

def sampleRow : TaskRow :=
  ⟨"t1", "video_generation", "completed", some "alice", 0, some 1, some 2, some 1,
    none, none, none⟩

def sampleCreatedRow : TaskRow :=
  ⟨"t1", "video_generation", "created", some "alice", 0, none, none, none,
    none, none, none⟩

/-- Claim C1 (counterexample): the store does not validate transitions.  After
`created -> started -> completed` (a terminal state), a further
`log_task(..., 'started')` moves the job back to `started`, and
`update_task_result` moves a `cancelled` job to `completed` — transitions out
of terminal states are applied, refuting the claim as stated. -/
theorem c1_counterexample :
    statusOf sampleCompleted "t1" = some "completed"
    ∧ isTerminalStatus "completed" = true
    ∧ statusOf sampleRestarted "t1" = some "started"
    ∧ isTerminalStatus "started" = false
    ∧ statusOf sampleCancelled "t1" = some "cancelled"
    ∧ statusOf (update_task_result sampleCancelled 3 "t1" (some "/out.mp4") none) "t1"
        = some "completed" := by
  decide

theorem log_task_started_tasks (s : MonState) (now : Int) (tid ttype : String)
    (u p : Option String) :
    ((log_task s now tid ttype "started" u p).1).tasks
      = s.tasks.map (fun r => if r.task_id = tid then
          { r with status := "started", started_at := some now } else r) := rfl

theorem update_task_result_ok_tasks (s : MonState) (now : Int) (tid : String)
    (res : Option String) :
    (update_task_result s now tid res none).tasks
      = s.tasks.map (fun r => if r.task_id = tid then
          { r with result_path := res, status := "completed" } else r) := rfl

/-- Claim C1 (amended): `log_task` and `update_task_result` apply the
requested status unconditionally to the row matching `task_id`, with no
transition validation: a `'started'` request and a result update each
overwrite the status of a row that is already in a terminal state. -/
theorem c1_amended :
    (∀ (s : MonState) (now : Int) (tid ttype : String) (u p : Option String) (r : TaskRow),
      r ∈ s.tasks → r.task_id = tid → isTerminalStatus r.status = true →
      { r with status := "started", started_at := some now }
        ∈ ((log_task s now tid ttype "started" u p).1).tasks)
    ∧ (∀ (s : MonState) (now : Int) (tid : String) (res : Option String) (r : TaskRow),
      r ∈ s.tasks → r.task_id = tid → isTerminalStatus r.status = true →
      { r with result_path := res, status := "completed" }
        ∈ (update_task_result s now tid res none).tasks) := by
  constructor
  · intro s now tid ttype u p r hr hid _hterm
    rw [log_task_started_tasks]
    have hm := List.mem_map_of_mem
      (f := fun row : TaskRow => if row.task_id = tid then
        { row with status := "started", started_at := some now } else row) hr
    simpa [hid] using hm
  · intro s now tid res r hr hid _hterm
    rw [update_task_result_ok_tasks]
    have hm := List.mem_map_of_mem
      (f := fun row : TaskRow => if row.task_id = tid then
        { row with result_path := res, status := "completed" } else row) hr
    simpa [hid] using hm

/-- Claim C3: recording a new job (`log_task` with status `'created'`) under a
task id already present in the store raises the `UNIQUE` constraint error and
leaves the `tasks` table — in particular the originally stored row — exactly
unchanged. -/
theorem c3_duplicate_insert (s : MonState) (now : Int)
    (tid ttype : String) (u p : Option String) (r : TaskRow)
    (hr : r ∈ s.tasks) (hid : r.task_id = tid) :
    (log_task s now tid ttype "created" u p).2
      = some "UNIQUE constraint failed: tasks.task_id"
    ∧ ((log_task s now tid ttype "created" u p).1).tasks = s.tasks := by
  have hany : s.tasks.any (fun row => row.task_id = tid) = true :=
    List.any_eq_true.mpr ⟨r, hr, by simp [hid]⟩
  simp [log_task, hany]

/-- Witness for `c3_duplicate_insert` at a concrete one-row store. -/
theorem c3_witness :
    (log_task sampleCreated 5 "t1" "video_generation" "created" (some "bob") none).2
      = some "UNIQUE constraint failed: tasks.task_id"
    ∧ ((log_task sampleCreated 5 "t1" "video_generation" "created" (some "bob") none).1).tasks
      = sampleCreated.tasks :=
  c3_duplicate_insert sampleCreated 5 "t1" "video_generation" (some "bob") none
    sampleCreatedRow (by decide) (by decide)

/-- Witness for `c1_amended` at a concrete store whose only row is in the
terminal state `completed`. -/
theorem c1_amended_witness :
    { sampleRow with status := "started", started_at := some (3 : Int) }
      ∈ ((log_task sampleCompleted 3 "t1" "video_generation" "started" (some "alice") none).1).tasks :=
  c1_amended.1 sampleCompleted 3 "t1" "video_generation" (some "alice") none
    sampleRow (by decide) (by decide) (by decide)

/-! ## monitor.py — alerts, retention sweep, statistics -/

/-- One row of the `alerts` table (`init_database`): inserted unacknowledged,
acknowledgement fields filled only by `acknowledge_alert`. -/
structure AlertRow where
  timestamp : Int
  alert_type : String
  alert_level : String
  message : String
  acknowledged : Bool
  acknowledged_by : Option String
  acknowledged_at : Option Int
deriving Repr, DecidableEq

/-- One element of the in-memory `alerts` deque (maxlen 100). -/
structure MemAlert where
  timestamp : Int
  type : String
  level : String
  message : String
  acknowledged : Bool
deriving Repr, DecidableEq

/-- The alert state `create_alert` touches: the in-memory deque and the
`alerts` table. -/
structure AlertsState where
  alerts : List MemAlert
  alertsDb : List AlertRow
deriving Repr, DecidableEq

/-- The `deque(maxlen = n)` append for the alerts deque. -/
def dequeAppendAlert (n : Nat) (l : List MemAlert) (x : MemAlert) : List MemAlert :=
  let h := l ++ [x]
  h.drop (h.length - n)

/-- Model of `TaskMonitor.create_alert` (monitor.py lines 239-265): append one alert to
the in-memory deque and INSERT one row into the `alerts` table (DB defaults:
unacknowledged, no acknowledger). -/
def create_alert (st : AlertsState) (now : Int) (alert_type level message : String) :
    AlertsState :=
  { alerts := dequeAppendAlert 100 st.alerts ⟨now, alert_type, level, message, false⟩,
    alertsDb := st.alertsDb ++ [⟨now, alert_type, level, message, false, none, none⟩] }

/-- The cached `self.metrics` readings consulted by `check_thresholds`
(`.get(key, 0)` is modelled by `Option.getD _ 0`). -/
structure Metrics where
  cpu : Option ℚ
  memory : Option ℚ
  disk : Option ℚ
deriving Repr, DecidableEq

/-- Model of `TaskMonitor.check_thresholds` (monitor.py lines 202-237): evaluate the
latest cached metrics and the queue size against the fixed thresholds
(cpu 90, memory 85, disk 90, queue 50) and call `create_alert` once per
breach, in source order.  No deduplication of any kind. -/
def check_thresholds (m : Metrics) (queueSize : Nat) (now : Int)
    (st : AlertsState) : AlertsState :=
  let st := if m.cpu.getD 0 > 90 then
      create_alert st now "high_cpu_usage" "warning"
        ("Высокая загрузка CPU: " ++ toString (m.cpu.getD 0) ++ "%")
    else st
  let st := if m.memory.getD 0 > 85 then
      create_alert st now "high_memory_usage" "warning"
        ("Высокая загрузка памяти: " ++ toString (m.memory.getD 0) ++ "%")
    else st
  let st := if m.disk.getD 0 > 90 then
      create_alert st now "high_disk_usage" "critical"
        ("Высокая загрузка диска: " ++ toString (m.disk.getD 0) ++ "%")
    else st
  let st := if queueSize > 50 then
      create_alert st now "large_queue" "warning"
        ("Большая очередь задач: " ++ toString queueSize)
    else st
  st

/-- Number of thresholds breached by one reading (one `create_alert` per
breach in `check_thresholds`). -/
def breachCount (m : Metrics) (queueSize : Nat) : Nat :=
  (if m.cpu.getD 0 > 90 then 1 else 0)
  + (if m.memory.getD 0 > 85 then 1 else 0)
  + (if m.disk.getD 0 > 90 then 1 else 0)
  + (if queueSize > 50 then 1 else 0)

/-- One row of the `system_metrics` table. -/
structure MetricRow where
  timestamp : Int
  cpu_percent : ℚ
  memory_percent : ℚ
  disk_usage_percent : ℚ
  network_sent_mb : ℚ
  network_recv_mb : ℚ
  active_tasks : Nat
  queue_size : Nat
deriving Repr, DecidableEq

/-- The four durable tables swept by `cleanup_old_data`. -/
structure DbState where
  tasks : List TaskRow
  system_metrics : List MetricRow
  errors : List ErrorRow
  alerts : List AlertRow
deriving Repr, DecidableEq

/-- SQLite `datetime('now', '-N days')` offsets by whole days. -/
def secondsPerDay : Int := 86400

/-- Model of `TaskMonitor.cleanup_old_data` (monitor.py lines 560-611): DELETE task
rows older than the `days_to_keep` horizon, metric rows older than 7 days,
error rows older than 90 days *and* resolved, and alert rows older than the
horizon *and* acknowledged.  Returns the swept tables and the four deleted-row
counts. -/
def cleanup_old_data (db : DbState) (now : Int) (days_to_keep : Nat) :
    DbState × (Nat × Nat × Nat × Nat) :=
  let cutoff := now - days_to_keep * secondsPerDay
  let tasks1 := db.tasks.filter (fun r => ¬ r.created_at < cutoff)
  let metrics1 := db.system_metrics.filter
    (fun r => ¬ r.timestamp < now - 7 * secondsPerDay)
  let errors1 := db.errors.filter
    (fun r => ¬ (r.timestamp < now - 90 * secondsPerDay ∧ r.resolved = true))
  let alerts1 := db.alerts.filter
    (fun a => ¬ (a.timestamp < cutoff ∧ a.acknowledged = true))
  (⟨tasks1, metrics1, errors1, alerts1⟩,
    (db.tasks.length - tasks1.length,
     db.system_metrics.length - metrics1.length,
     db.errors.length - errors1.length,
     db.alerts.length - alerts1.length))

/-- Per-`task_type` aggregate of `get_statistics`. -/
structure TypeStats where
  count : Nat
  avg_duration : ℚ
  completed : Nat
  success_rate : ℚ
deriving Repr, DecidableEq

/-- The aggregates computed by `get_statistics` from the `tasks` table (the
`current` block of the Python dict merely copies cached values and involves no
arithmetic, so it is not part of the aggregate). -/
structure Stats where
  total_tasks : Nat
  completed : Nat
  failed : Nat
  cancelled : Nat
  avg_duration : ℚ
  success_rate : ℚ
  by_type : List (String × TypeStats)
  by_hour : List (Int × Nat)
deriving Repr, DecidableEq

/-- SQL `AVG(duration)`: average over the non-NULL durations; the Python
`row or 0` turns the NULL result for an empty aggregate into 0. -/
def avgDuration (rows : List TaskRow) : ℚ :=
  let ds := rows.filterMap (fun r => r.duration)
  if ds.length = 0 then 0 else ((ds.map (fun d => (d : ℚ))).sum) / ds.length

/-- SQLite `strftime('%H', created_at)`: the UTC hour of a timestamp. -/
def hourOfTimestamp (t : Int) : Int := (t % 86400) / 3600

/-- Model of `TaskMonitor.get_statistics` (monitor.py lines 425-502): aggregates over
the tasks whose `created_at` falls within the last `days` days — counts per
status, average duration, success rate guarded by `row[0] > 0`, the same
per `task_type` (GROUP BY) guarded by each group count, and task counts per
hour of day. -/
def get_statistics (tasks : List TaskRow) (now : Int) (days : Nat) : Stats :=
  let window := tasks.filter (fun r => now - days * secondsPerDay ≤ r.created_at)
  let total := window.length
  let comp := (window.filter (fun r => r.status = "completed")).length
  let fail := (window.filter (fun r => r.status = "failed")).length
  let canc := (window.filter (fun r => r.status = "cancelled")).length
  let types := (window.map (fun r => r.task_type)).dedup
  let by_type := types.map (fun ty =>
    let g := window.filter (fun r => r.task_type = ty)
    let gcomp := (g.filter (fun r => r.status = "completed")).length
    (ty, (⟨g.length, avgDuration g, gcomp,
          if g.length > 0 then (gcomp : ℚ) / g.length * 100 else 0⟩ : TypeStats)))
  let hours := (window.map (fun r => hourOfTimestamp r.created_at)).dedup
  let by_hour := hours.map (fun h =>
    (h, (window.filter (fun r => hourOfTimestamp r.created_at = h)).length))
  { total_tasks := total, completed := comp, failed := fail, cancelled := canc,
    avg_duration := avgDuration window,
    success_rate := if total > 0 then (comp : ℚ) / total * 100 else 0,
    by_type := by_type, by_hour := by_hour }

set_option maxRecDepth 8000 in
/-- Claim C7: a cached CPU reading of 95 (above the fixed threshold 90), with
the other metrics and the queue below their thresholds, makes
`check_thresholds` issue exactly one `create_alert` call of type
`high_cpu_usage` with warning severity (and `create_alert` appends exactly one
row); evaluating the same reading twice appends two identical rows — no
deduplication.  Memory > 85 and queue > 50 produce warning alerts, disk > 90 a
critical alert, and in general each evaluation appends exactly one row per
breached threshold. -/
theorem c7_alerts (st : AlertsState) (now : Int) (q : Nat) (m : Metrics)
    (hc : m.cpu = some 95) (hm : ¬ m.memory.getD 0 > 85)
    (hd : ¬ m.disk.getD 0 > 90) (hq : ¬ q > 50) :
    (∀ (st' : AlertsState) (now' : Int) (ty lv msg : String),
      (create_alert st' now' ty lv msg).alertsDb
        = st'.alertsDb ++ [⟨now', ty, lv, msg, false, none, none⟩])
    ∧ check_thresholds m q now st
        = create_alert st now "high_cpu_usage" "warning"
            ("Высокая загрузка CPU: " ++ toString (95 : ℚ) ++ "%")
    ∧ (check_thresholds m q now (check_thresholds m q now st)).alertsDb
        = st.alertsDb
          ++ [⟨now, "high_cpu_usage", "warning",
                "Высокая загрузка CPU: " ++ toString (95 : ℚ) ++ "%", false, none, none⟩,
              ⟨now, "high_cpu_usage", "warning",
                "Высокая загрузка CPU: " ++ toString (95 : ℚ) ++ "%", false, none, none⟩]
    ∧ (∀ (m' : Metrics) (q' : Nat) (st' : AlertsState) (now' : Int),
        (check_thresholds m' q' now' st').alertsDb.length
          = st'.alertsDb.length + breachCount m' q')
    ∧ (∀ (m' : Metrics) (q' : Nat) (st' : AlertsState) (now' : Int),
        m'.memory.getD 0 > 85 →
        (⟨now', "high_memory_usage", "warning",
          "Высокая загрузка памяти: " ++ toString (m'.memory.getD 0) ++ "%",
          false, none, none⟩ : AlertRow) ∈ (check_thresholds m' q' now' st').alertsDb)
    ∧ (∀ (m' : Metrics) (q' : Nat) (st' : AlertsState) (now' : Int),
        m'.disk.getD 0 > 90 →
        (⟨now', "high_disk_usage", "critical",
          "Высокая загрузка диска: " ++ toString (m'.disk.getD 0) ++ "%",
          false, none, none⟩ : AlertRow) ∈ (check_thresholds m' q' now' st').alertsDb)
    ∧ (∀ (m' : Metrics) (q' : Nat) (st' : AlertsState) (now' : Int),
        q' > 50 →
        (⟨now', "large_queue", "warning",
          "Большая очередь задач: " ++ toString q',
          false, none, none⟩ : AlertRow) ∈ (check_thresholds m' q' now' st').alertsDb) := by
  have hc95 : m.cpu.getD 0 = 95 := by rw [hc]; rfl
  have h95 : (95 : ℚ) > 90 := by decide
  have hcpos : m.cpu.getD 0 > 90 := by rw [hc95]; decide
  refine ⟨fun st' now' ty lv msg => rfl, ?_, ?_, ?_, ?_, ?_, ?_⟩
  · simp only [check_thresholds, hc95, if_pos h95, if_pos hcpos, if_neg hm, if_neg hd,
      if_neg hq]
  · simp only [check_thresholds, hc95, if_pos h95, if_pos hcpos, if_neg hm, if_neg hd,
      if_neg hq, create_alert, List.append_assoc, List.singleton_append]
  · intro m' q' st' now'
    simp only [check_thresholds, breachCount]
    split_ifs <;> simp [create_alert]
  · intro m' q' st' now' hmem
    simp only [check_thresholds, if_pos hmem]
    split_ifs <;> simp [create_alert]
  · intro m' q' st' now' hdisk
    simp only [check_thresholds, if_pos hdisk]
    split_ifs <;> simp [create_alert]
  · intro m' q' st' now' hqueue
    simp only [check_thresholds, if_pos hqueue]
    split_ifs <;> simp [create_alert]

/-- Witness for `c7_alerts`: CPU 95, memory 50, disk 50, empty queue. -/
theorem c7_witness :
    check_thresholds ⟨some 95, some 50, some 50⟩ 0 0 ⟨[], []⟩
      = create_alert ⟨[], []⟩ 0 "high_cpu_usage" "warning"
          ("Высокая загрузка CPU: " ++ toString (95 : ℚ) ++ "%") :=
  (c7_alerts ⟨[], []⟩ 0 0 ⟨some 95, some 50, some 50⟩ rfl (by decide) (by decide)
    (by decide)).2.1

/-- Claim C8: the retention sweep never deletes an unacknowledged alert row,
whatever its timestamp; an acknowledged alert older than the retention horizon
is deleted. -/
theorem c8_retention (db : DbState) (now : Int) (days : Nat) (a : AlertRow)
    (ha : a ∈ db.alerts) :
    (a.acknowledged = false → a ∈ ((cleanup_old_data db now days).1).alerts)
    ∧ (a.acknowledged = true → a.timestamp < now - days * secondsPerDay →
        a ∉ ((cleanup_old_data db now days).1).alerts) := by
  constructor
  · intro hack
    simp only [cleanup_old_data, List.mem_filter]
    exact ⟨ha, by simp [hack]⟩
  · intro hack hold
    simp only [cleanup_old_data, List.mem_filter]
    intro hcontra
    have := hcontra.2
    simp [hack, hold] at this

def oldUnacked : AlertRow :=
  ⟨0, "high_cpu_usage", "warning", "m1", false, none, none⟩

def oldAcked : AlertRow :=
  ⟨0, "high_disk_usage", "critical", "m2", true, some "alice", some 10⟩

def sampleDb : DbState := ⟨[], [], [], [oldUnacked, oldAcked]⟩

/-- Witness for `c8_retention`: a database holding one ancient unacknowledged
alert (kept) and one ancient acknowledged alert (deleted). -/
theorem c8_witness :
    oldUnacked ∈ ((cleanup_old_data sampleDb 90000000 30).1).alerts
    ∧ oldAcked ∉ ((cleanup_old_data sampleDb 90000000 30).1).alerts :=
  ⟨(c8_retention sampleDb 90000000 30 oldUnacked (by decide)).1 rfl,
   (c8_retention sampleDb 90000000 30 oldAcked (by decide)).2 rfl (by decide)⟩

/-- Claim C10: `get_statistics` never divides by zero — with an empty window
the overall success rate is reported as 0 and the average duration defaults to
0, and every per-type group has a strictly positive count with its success
rate computed by the guarded division. -/
theorem c10_statistics (tasks : List TaskRow) (now : Int) (days : Nat) :
    (tasks.filter (fun r => now - days * secondsPerDay ≤ r.created_at) = [] →
      (get_statistics tasks now days).success_rate = 0
      ∧ (get_statistics tasks now days).avg_duration = 0)
    ∧ (∀ p ∈ (get_statistics tasks now days).by_type,
        0 < p.2.count
        ∧ p.2.success_rate = (p.2.completed : ℚ) / p.2.count * 100) := by
  constructor
  · intro hw
    simp only [get_statistics, hw]
    constructor
    · simp
    · simp [avgDuration]
  · intro p hp
    simp only [get_statistics, List.mem_map] at hp
    obtain ⟨ty, hty, rfl⟩ := hp
    have hty' := List.mem_dedup.mp hty
    obtain ⟨r, hrw, hrt⟩ := List.mem_map.mp hty'
    have hg : r ∈ (tasks.filter
        (fun r => now - days * secondsPerDay ≤ r.created_at)).filter
        (fun row => row.task_type = ty) :=
      List.mem_filter.mpr ⟨hrw, by simp [hrt]⟩
    have hlen := List.length_pos_of_mem hg
    refine ⟨hlen, ?_⟩
    dsimp only
    rw [if_pos hlen]

/-- Witness for `c10_statistics` on an empty store. -/
theorem c10_witness :
    (get_statistics [] 0 7).success_rate = 0
    ∧ (get_statistics [] 0 7).avg_duration = 0 :=
  (c10_statistics [] 0 7).1 rfl

/-! ## colab_runner.py — ColabManager -/

/-- Payload dict of one queued Colab task, after `execute_task` stored the
assigned id under the `task_id` key.  Only the `action` key drives the
dispatch in `_execute_colab_task`. -/
structure TaskData where
  action : Option String
  task_id : String
deriving Repr, DecidableEq

/-- Result payloads of the three stub task runners (`_colab_generate_images`,
`_colab_upscale_image`, `_colab_super_resolution`). -/
inductive ColabValue where
  | generated
  | upscaled
  | superres
deriving Repr, DecidableEq

/-- Model of `ColabManager._execute_colab_task` (colab_runner.py lines
148-162): dispatch on the `action` key; an unknown or missing action raises
`ValueError("Unknown action: ...")` (Python renders a missing key as None). -/
def execute_colab_task (t : TaskData) : Except String ColabValue :=
  match t.action with
  | some "generate_images" => .ok .generated
  | some "upscale_image" => .ok .upscaled
  | some "super_resolution" => .ok .superres
  | some a => .error ("Unknown action: " ++ a)
  | none => .error "Unknown action: None"

/-- One entry of `self.results`, as written by the background processor. -/
structure TaskResult where
  success : Bool
  result : Option ColabValue
  error : Option String
  completed_at : Nat
deriving Repr, DecidableEq

/-- One iteration of the background processor thread (colab_runner.py lines
67-92): run the task; any exception is caught and becomes a failure record
whose `error` is the exception's message. -/
def run_colab_task (t : TaskData) (now : Nat) : TaskResult :=
  match execute_colab_task t with
  | .ok r => ⟨true, some r, none, now⟩
  | .error e => ⟨false, none, some e, now⟩

/-- The background processor applied to a whole queue: one result record per
queued task, in FIFO order, keyed by the task's assigned `task_id`; the loop
body never rethrows, so a failing task does not stop the processing of the
tasks behind it. -/
def process_queue : List TaskData → Nat → List (String × TaskResult)
  | [], _ => []
  | t :: rest, now => (t.task_id, run_colab_task t now) :: process_queue rest (now + 1)

/-- The fixed poll interval of the wait loop in `execute_task`:
`time.sleep(1)`. -/
def colabPollIntervalSeconds : Nat := 1

/-- Model of the poll loop of `ColabManager.execute_task` (colab_runner.py
lines 133-146), one check per elapsed second: `snap k` is the view of
`self.results.get(task_id)` after `k` seconds.  While the id is absent: if
the elapsed time exceeds `timeout`, return the timeout error; otherwise sleep
one second and re-check.  When the record appears it is popped and
returned. -/
def poll_for_result (snap : Nat → Option TaskResult) (timeout : Nat) (k : Nat) :
    Except String TaskResult :=
  match snap k with
  | some r => .ok r
  | none =>
    if h : k > timeout then
      .error ("Task timeout after " ++ toString timeout ++ " seconds")
    else
      poll_for_result snap timeout (k + 1)
termination_by timeout + 1 - k
decreasing_by omega

/-- Helper: the poll loop, started at any second `k` within the window, times
out when the record never appears during the window. -/
theorem poll_timeout_from (snap : Nat → Option TaskResult) (timeout : Nat) :
    ∀ (n k : Nat), k ≤ timeout + 1 → timeout + 1 - k ≤ n →
    (∀ j, k ≤ j → j ≤ timeout + 1 → snap j = none) →
    poll_for_result snap timeout k
      = .error ("Task timeout after " ++ toString timeout ++ " seconds") := by
  intro n
  induction n with
  | zero =>
    intro k hk hb hs
    have hk2 : k = timeout + 1 := by omega
    rw [poll_for_result, hs k le_rfl hk]
    simp only
    rw [dif_pos (by omega)]
  | succ n ih =>
    intro k hk hb hs
    rw [poll_for_result, hs k le_rfl hk]
    simp only
    by_cases hgt : k > timeout
    · rw [dif_pos hgt]
    · rw [dif_neg hgt]
      exact ih (k + 1) (by omega) (by omega)
        (fun j hj1 hj2 => hs j (by omega) hj2)

/-- Helper: the processor records every queued task's id, in queue order. -/
theorem process_queue_fst :
    ∀ (l : List TaskData) (now : Nat),
    (process_queue l now).map Prod.fst = l.map (fun d => d.task_id)
  | [], _ => rfl
  | t :: rest, now => by
    simp [process_queue, process_queue_fst rest (now + 1)]

/-- Helper: the record for the task at queue position `pre.length` is its
run outcome, keyed by its assigned id. -/
theorem process_queue_get :
    ∀ (pre : List TaskData) (t : TaskData) (post : List TaskData) (now : Nat),
    (process_queue (pre ++ t :: post) now).get? pre.length
      = some (t.task_id, run_colab_task t (now + pre.length))
  | [], t, post, now => by simp [process_queue]
  | p :: pre, t, post, now => by
    have h := process_queue_get pre t post (now + 1)
    have harith : now + 1 + pre.length = now + (pre.length + 1) := by omega
    rw [harith] at h
    simpa [process_queue] using h

/-- Claim C2: when the result record never appears during the timeout window,
the synchronous wait of `execute_task` — which checks once per second
(`colabPollIntervalSeconds = 1`, from `time.sleep(1)`) — returns the timeout
error; nothing cancels the queued task, and the background worker that later
reaches it still records its success-or-error outcome under its id, where it
remains retrievable (the caller-side pop only happens on the success path of
the wait loop, which already returned). -/
theorem c2_timeout (snap : Nat → Option TaskResult) (timeout : Nat)
    (hslow : ∀ k, k ≤ timeout + 1 → snap k = none) :
    poll_for_result snap timeout 0
      = .error ("Task timeout after " ++ toString timeout ++ " seconds")
    ∧ colabPollIntervalSeconds = 1
    ∧ (∀ (t : TaskData) (rest : List TaskData) (now : Nat),
        List.lookup t.task_id (process_queue (t :: rest) now)
          = some (run_colab_task t now)) := by
  refine ⟨?_, rfl, ?_⟩
  · exact poll_timeout_from snap timeout (timeout + 1) 0 (by omega) (by omega)
      (fun j _ hj => hslow j hj)
  · intro t rest now
    simp [process_queue, List.lookup]

/-- Witness for `c2_timeout`: a two-second timeout against a worker that
never finishes within the window. -/
theorem c2_witness :
    poll_for_result (fun _ => none) 2 0
      = .error ("Task timeout after " ++ toString 2 ++ " seconds")
    ∧ colabPollIntervalSeconds = 1
    ∧ (∀ (t : TaskData) (rest : List TaskData) (now : Nat),
        List.lookup t.task_id (process_queue (t :: rest) now)
          = some (run_colab_task t now)) :=
  c2_timeout (fun _ => none) 2 (fun _ _ => rfl)

/-- Claim C4: the background worker loop converts a raised exception
(including the unknown-action `ValueError`) into a failed record whose error
text is the exception's message, and still processes every other queued task:
the result list covers the whole queue in order, and the failing task's entry
at its queue position is the failure record. -/
theorem c4_worker_resilience (pre post : List TaskData) (t : TaskData)
    (now : Nat) (e : String) (he : execute_colab_task t = .error e) :
    (process_queue (pre ++ t :: post) now).map Prod.fst
      = (pre ++ t :: post).map (fun d => d.task_id)
    ∧ (process_queue (pre ++ t :: post) now).get? pre.length
      = some (t.task_id, ⟨false, none, some e, now + pre.length⟩) := by
  refine ⟨process_queue_fst _ _, ?_⟩
  rw [process_queue_get]
  simp [run_colab_task, he]

/-- Witness for `c4_worker_resilience`: a queue of three tasks whose middle
task has the unknown action kind `frobnicate`. -/
theorem c4_witness :
    (process_queue [⟨some "generate_images", "a"⟩, ⟨some "frobnicate", "b"⟩,
        ⟨some "upscale_image", "c"⟩] 0).map Prod.fst = ["a", "b", "c"]
    ∧ (process_queue [⟨some "generate_images", "a"⟩, ⟨some "frobnicate", "b"⟩,
        ⟨some "upscale_image", "c"⟩] 0).get? 1
      = some ("b", ⟨false, none, some "Unknown action: frobnicate", 1⟩) :=
  c4_worker_resilience [⟨some "generate_images", "a"⟩] [⟨some "upscale_image", "c"⟩]
    ⟨some "frobnicate", "b"⟩ 0 "Unknown action: frobnicate" rfl

/-- Python `"%04d" % n`: decimal rendering left-padded with zeros to width
4. -/
def pyFormat04d (n : Nat) : String :=
  let s := toString n
  String.mk (List.replicate (4 - s.length) '0') ++ s

/-- Model of the id assignment in `ColabManager.execute_task` (colab_runner.py
line 127): `task_id = "task_" + int(time.time()) + "_" + hash(json.dumps(
task_data)) % 10000`, zero-padded to four digits.  Python's `%` on a positive
modulus is `Int.emod`. -/
def colab_task_id (nowSeconds : Nat) (payloadHash : Int) : String :=
  "task_" ++ toString nowSeconds ++ "_" ++ pyFormat04d (payloadHash % 10000).toNat

/-- The ids assigned to a sequence of submissions, each given by its clock
second and the Python hash of its serialized payload (equal payloads hash
equally within one process). -/
def assigned_task_ids (subs : List (Nat × Int)) : List String :=
  subs.map (fun s => colab_task_id s.1 s.2)

/-- Claim C9 (counterexample): two distinct submissions made in the same
clock second with equal payloads are assigned the very same id — the assigned
id list of two such submissions has length 2 but is not duplicate-free, so
system-assigned ids are not globally unique. -/
theorem c9_counterexample :
    (assigned_task_ids [(1700000000, 1234), (1700000000, 1234)]).length = 2
    ∧ ¬ (assigned_task_ids [(1700000000, 1234), (1700000000, 1234)]).Nodup := by
  refine ⟨rfl, ?_⟩
  decide

/-- Claim C9 (amended): the assigned id is a pure function of the submission
clock second and the payload hash modulo 10000, so any two submissions
agreeing on both — in particular equal payloads within one second — receive
the same id; the id itself never changes after assignment: the worker records
every task's result under exactly the `task_id` the dispatcher stored. -/
theorem c9_amended :
    (∀ (t : Nat) (h₁ h₂ : Int), h₁ % 10000 = h₂ % 10000 →
      colab_task_id t h₁ = colab_task_id t h₂)
    ∧ (∀ (l : List TaskData) (now : Nat),
        (process_queue l now).map Prod.fst = l.map (fun d => d.task_id)) :=
  ⟨fun t h₁ h₂ hh => by simp [colab_task_id, hh], process_queue_fst⟩

/-- Witness for `c9_amended`: two different payload hashes congruent modulo
10000 in the same second collide. -/
theorem c9_witness :
    colab_task_id 1700000000 1234 = colab_task_id 1700000000 11234 :=
  c9_amended.1 1700000000 1234 11234 (by decide)

/-! ## pipeline_core.py — VideoPipeline -/

/-- Outcome of `extend_video`: either the input path is returned unchanged,
or a concatenation list is written (one `file` line per repeat of the source),
the entries are concatenated with the external encoder, and the result is
trimmed (`-t`) to `trim_seconds`. -/
inductive ExtendResult where
  | unchanged (path : String)
  | extended (concat_list : List String) (trim_seconds : ℚ)
deriving Repr, DecidableEq

/-- Model of `VideoPipeline.extend_video` (pipeline_core.py lines 381-448).
The probed duration of the source (`utils.get_video_info`) and its existence
on disk are inputs of the model; `int(target/current)` truncates toward zero,
which for positive durations is the floor. -/
def extend_video (path : String) (file_on_disk : Bool) (current_duration : ℚ)
    (target_duration : ℚ) : Except String ExtendResult :=
  if ¬ file_on_disk then
    .error ("Video not found: " ++ path)
  else if current_duration ≥ target_duration then
    .ok (.unchanged path)
  else
    .ok (.extended
      (List.replicate (⌊target_duration / current_duration⌋ + 1).toNat path)
      target_duration)

/-- Claim C5: for an existing source of probed duration `d > 0`,
`extend_video` returns the input unchanged when `d ≥ t`; otherwise it writes
a concatenation list naming the source exactly `floor(t/d) + 1` times — so
the pre-trim concatenation lasts `repeats · d ≥ t` seconds — and trims the
concatenated result to exactly `t` seconds. -/
theorem c5_extend (path : String) (d t : ℚ) (hd : 0 < d) :
    (t ≤ d → extend_video path true d t = .ok (.unchanged path))
    ∧ (d < t →
        extend_video path true d t
          = .ok (.extended (List.replicate (⌊t / d⌋ + 1).toNat path) t)
        ∧ (List.replicate (⌊t / d⌋ + 1).toNat path).length = (⌊t / d⌋ + 1).toNat
        ∧ t ≤ ((⌊t / d⌋ + 1).toNat : ℚ) * d) := by
  constructor
  · intro h
    simp [extend_video, h]
  · intro h
    have hnot : ¬ d ≥ t := not_le.mpr h
    refine ⟨by simp [extend_video, hnot], by simp, ?_⟩
    have ht0 : 0 < t := lt_trans hd h
    have hfl : (0 : Int) ≤ ⌊t / d⌋ :=
      Int.floor_nonneg.mpr (div_nonneg ht0.le hd.le)
    have htoNat : (((⌊t / d⌋ + 1).toNat : ℚ)) = (⌊t / d⌋ : ℚ) + 1 := by
      have : ((⌊t / d⌋ + 1).toNat : Int) = ⌊t / d⌋ + 1 :=
        Int.toNat_of_nonneg (by omega)
      exact_mod_cast congrArg (fun z : Int => (z : ℚ)) this
    rw [htoNat]
    have hlt : t / d < (⌊t / d⌋ : ℚ) + 1 := Int.lt_floor_add_one _
    have := mul_le_mul_of_nonneg_right hlt.le hd.le
    calc t = t / d * d := by field_simp
      _ ≤ ((⌊t / d⌋ : ℚ) + 1) * d := this

/-- Witness for `c5_extend` at the spec's example `d = 5`, `t = 12`:
`repeats = 3`, and the pre-trim concatenation (three copies, 15 s) covers the
12-second trim target. -/
theorem c5_witness :
    extend_video "/v.mp4" true 5 12
      = .ok (.extended (List.replicate (⌊(12 : ℚ) / 5⌋ + 1).toNat "/v.mp4") 12)
    ∧ (⌊(12 : ℚ) / 5⌋ + 1).toNat = 3
    ∧ (12 : ℚ) ≤ ((⌊(12 : ℚ) / 5⌋ + 1).toNat : ℚ) * 5 :=
  ⟨((c5_extend "/v.mp4" 5 12 (by decide)).2 (by decide)).1,
   by rw [show (⌊(12 : ℚ) / 5⌋ : Int) = 2 by norm_num]; decide,
   ((c5_extend "/v.mp4" 5 12 (by decide)).2 (by decide)).2.2⟩

/-- One audio track dict passed to `create_video_from_image`: its `path`, its
optional `volume` (`track.get('volume', 100)`), and whether the path exists
on disk (`os.path.exists`). -/
structure AudioTrack where
  path : String
  volume : Option ℚ
  file_on_disk : Bool
deriving Repr, DecidableEq

/-- One normalized track: the encoder is invoked per track with
`-af volume=<level/100> -ac 2` (pipeline_core.py lines 302-322). -/
structure ProcessedAudio where
  src : String
  volumeFilter : ℚ
  channels : Nat
deriving Repr, DecidableEq

/-- The per-track normalization pass of `_mix_audio_tracks`: tracks missing
on disk are skipped, each existing track is processed independently. -/
def processTracks (tracks : List AudioTrack) : List ProcessedAudio :=
  (tracks.filter (fun t => t.file_on_disk)).map
    (fun t => ⟨t.path, t.volume.getD 100 / 100, 2⟩)

/-- How the processed tracks are combined into `mixed_audio`: a single track
is copied through unchanged (`shutil.copy2`); two or more are merged with
`amerge=inputs=n` into a 2-channel (`-ac 2`) mix. -/
inductive MixedAudio where
  | single (a : ProcessedAudio)
  | merged (inputs : List ProcessedAudio) (channels : Nat)
deriving Repr, DecidableEq

/-- Outcome of the audio stage: either the video is used as-is (no
audio-mixing step), or the mix is muxed against the video, `-shortest`
making the shorter stream win. -/
inductive MixOutcome where
  | passthrough (video : String)
  | mixed (video : String) (mix : MixedAudio) (shortestWins : Bool)
deriving Repr, DecidableEq

/-- Model of `VideoPipeline._mix_audio_tracks` (pipeline_core.py lines
293-379): normalize each existing track, copy a single processed track
through unchanged or `amerge` two or more into a 2-channel mix, then mux
against the video with `-shortest`. -/
def mix_audio_tracks (video_path : String) (tracks : List AudioTrack) :
    MixOutcome :=
  if tracks.isEmpty then .passthrough video_path
  else
    match processTracks tracks with
    | [] => .passthrough video_path
    | [a] => .mixed video_path (.single a) true
    | a :: b :: rest => .mixed video_path (.merged (a :: b :: rest) 2) true

/-- The audio branch of `VideoPipeline.create_video_from_image`
(pipeline_core.py lines 250-254): with no audio tracks the raw video is used
directly and `_mix_audio_tracks` is never called. -/
def create_video_audio_step (video_path : String) (tracks : List AudioTrack) :
    MixOutcome :=
  if ¬ tracks.isEmpty then mix_audio_tracks video_path tracks
  else .passthrough video_path

/-- Claim C6: every existing audio track is independently normalized with
volume filter `requested level / 100` and nothing else is; a single processed
track is copied through unchanged while two or more are merged into one
2-channel mix; the mix is muxed against the video with shortest-stream-wins
semantics; and with zero tracks the video passes through with no
audio-mixing step. -/
theorem c6_audio (video : String) (tracks : List AudioTrack) :
    (∀ pa ∈ processTracks tracks, ∃ t ∈ tracks, t.file_on_disk = true
        ∧ pa = ⟨t.path, t.volume.getD 100 / 100, 2⟩)
    ∧ (∀ t ∈ tracks, t.file_on_disk = true →
        (⟨t.path, t.volume.getD 100 / 100, 2⟩ : ProcessedAudio)
          ∈ processTracks tracks)
    ∧ (∀ a, processTracks tracks = [a] →
        mix_audio_tracks video tracks = .mixed video (.single a) true)
    ∧ (2 ≤ (processTracks tracks).length →
        mix_audio_tracks video tracks
          = .mixed video (.merged (processTracks tracks) 2) true)
    ∧ create_video_audio_step video [] = .passthrough video := by
  refine ⟨?_, ?_, ?_, ?_, rfl⟩
  · intro pa hpa
    simp only [processTracks, List.mem_map, List.mem_filter] at hpa
    obtain ⟨t, ⟨ht, hdisk⟩, rfl⟩ := hpa
    exact ⟨t, ht, by simpa using hdisk, rfl⟩
  · intro t ht hdisk
    simp only [processTracks, List.mem_map]
    exact ⟨t, List.mem_filter.mpr ⟨ht, by simp [hdisk]⟩, rfl⟩
  · intro a ha
    have hne : ¬ tracks.isEmpty := by
      cases tracks with
      | nil => simp [processTracks] at ha
      | cons x xs => simp
    simp only [mix_audio_tracks, if_neg hne]
    rw [ha]
  · intro h2
    have hne : ¬ tracks.isEmpty := by
      cases tracks with
      | nil => simp [processTracks] at h2
      | cons x xs => simp
    simp only [mix_audio_tracks, if_neg hne]
    rcases hp : processTracks tracks with _ | ⟨a, _ | ⟨b, rest⟩⟩
    · rw [hp] at h2; simp at h2
    · rw [hp] at h2; simp at h2
    · rfl

/-- Witness for `c6_audio`: two tracks with volumes 50 and 100 (the default)
produce one 2-channel merged mix with volume filters 0.5 and 1. -/
theorem c6_witness :
    mix_audio_tracks "/v.mp4"
        [⟨"a.mp3", some 50, true⟩, ⟨"b.mp3", none, true⟩]
      = .mixed "/v.mp4"
          (.merged [⟨"a.mp3", 50 / 100, 2⟩, ⟨"b.mp3", 100 / 100, 2⟩] 2) true :=
  (c6_audio "/v.mp4" [⟨"a.mp3", some 50, true⟩, ⟨"b.mp3", none, true⟩]).2.2.2.1
    (by simp [processTracks])

end AP
